import Mathlib

/-!
Shallow embedding of `src/key_event_serde.rs` from the `crossterm_serde`
repository: a bidirectional text codec for crossterm key events.

Strings are modelled as `List Char` (`Str`), with Rust's `str::trim`
(Unicode whitespace) and UTF-8 byte length (`str::len`) made explicit.
Crossterm's `KeyModifiers` bitflags are modelled as `Nat` bitmasks with
the same bit assignments as the crossterm crate; `KeyCode` is modelled
as an inductive covering every crossterm variant (the sub-enum payloads
of `F`, `Media` and `Modifier` are abstracted to `Nat` indices, which is
enough because the codec never inspects them).  Fallible Rust functions
returning `Result<_, E>` become `Except String _`, carrying the exact
error message the source builds.
-/

deriving instance DecidableEq for Except

/-- Rust strings, as lists of Unicode scalar values. -/
abbrev Str := List Char

/-- Rust's `char::is_whitespace`: the Unicode `White_Space` property. -/
def rustIsWhitespace (c : Char) : Bool :=
  let n := c.toNat
  (0x09 ≤ n && n ≤ 0x0D) || n == 0x20 || n == 0x85 || n == 0xA0 ||
  n == 0x1680 || (0x2000 ≤ n && n ≤ 0x200A) || n == 0x2028 ||
  n == 0x2029 || n == 0x202F || n == 0x205F || n == 0x3000

/-- Leading-whitespace removal, as in Rust's `str::trim_start`. -/
def trimLeft (s : Str) : Str := s.dropWhile rustIsWhitespace

/-- Trailing-whitespace removal, as in Rust's `str::trim_end`. -/
def trimRight (s : Str) : Str := (s.reverse.dropWhile rustIsWhitespace).reverse

/-- Rust's `str::trim`: drop leading and trailing whitespace. -/
def trim (s : Str) : Str := trimRight (trimLeft s)

/-- Rust's `str::len`: the UTF-8 byte length of the string. -/
def utf8Len (s : Str) : Nat := (s.map Char.utf8Size).sum

/-- Association-list lookup by string key; models `HashMap::get` on a map
built from a literal list of distinct keys. -/
def assocLookup {α : Type} : List (Str × α) → Str → Option α
  | [], _ => none
  | p :: rest, s => if p.1 = s then some p.2 else assocLookup rest s

/-- `crossterm::event::KeyCode`.  `F`, `Media` and `Modifier` carry their
payload as an abstract index. -/
inductive KeyCode where
  | Backspace
  | Enter
  | Left
  | Right
  | Up
  | Down
  | Home
  | End
  | PageUp
  | PageDown
  | Tab
  | BackTab
  | Delete
  | Insert
  | F (n : Nat)
  | Char (c : Char)
  | Null
  | Esc
  | CapsLock
  | ScrollLock
  | NumLock
  | PrintScreen
  | Pause
  | Menu
  | KeypadBegin
  | Media (m : Nat)
  | Modifier (m : Nat)
deriving DecidableEq

/-- `crossterm::event::KeyEventKind`. -/
inductive KeyEventKind where
  | Press
  | Repeat
  | Release
deriving DecidableEq

namespace KeyModifiers

/-- `KeyModifiers::NONE` (empty bitset). -/
def NONE : Nat := 0
/-- `KeyModifiers::SHIFT` bit. -/
def SHIFT : Nat := 1
/-- `KeyModifiers::CONTROL` bit. -/
def CONTROL : Nat := 2
/-- `KeyModifiers::ALT` bit. -/
def ALT : Nat := 4
/-- `KeyModifiers::SUPER` bit. -/
def SUPER : Nat := 8
/-- `KeyModifiers::HYPER` bit. -/
def HYPER : Nat := 16
/-- `KeyModifiers::META` bit. -/
def META : Nat := 32

/-- bitflags `contains`: all bits of `flag` are present in `m`. -/
def contains (m flag : Nat) : Bool := m &&& flag == flag

end KeyModifiers

namespace serde_key_code

/-- The `KEYWORDS` table: reserved name → named key code. -/
def KEYWORDS : List (Str × KeyCode) := [
  ("Backspace".data, KeyCode.Backspace),
  ("Enter".data, KeyCode.Enter),
  ("Left".data, KeyCode.Left),
  ("Right".data, KeyCode.Right),
  ("Up".data, KeyCode.Up),
  ("Down".data, KeyCode.Down),
  ("Home".data, KeyCode.Home),
  ("End".data, KeyCode.End),
  ("PageUp".data, KeyCode.PageUp),
  ("PageDown".data, KeyCode.PageDown),
  ("Tab".data, KeyCode.Tab),
  ("BackTab".data, KeyCode.BackTab),
  ("Delete".data, KeyCode.Delete),
  ("Insert".data, KeyCode.Insert),
  ("Null".data, KeyCode.Null),
  ("Esc".data, KeyCode.Esc),
  ("CapsLock".data, KeyCode.CapsLock),
  ("ScrollLock".data, KeyCode.ScrollLock),
  ("NumLock".data, KeyCode.NumLock),
  ("PrintScreen".data, KeyCode.PrintScreen),
  ("Pause".data, KeyCode.Pause),
  ("Menu".data, KeyCode.Menu),
  ("KeypadBegin".data, KeyCode.KeypadBegin)]

/-- Lookup in the `KEYWORDS_REV` table (the inversion of `KEYWORDS`;
`KEYWORDS` is injective in both components, so iteration order of the
source `HashMap` is irrelevant). -/
def lookupRev : List (Str × KeyCode) → KeyCode → Option Str
  | [], _ => none
  | p :: rest, c => if p.2 = c then some p.1 else lookupRev rest c

/-- Error message of `key_code_to_text` (typo preserved from the source). -/
def SER_ERROR_MESSAGE : String :=
  "One char must be provided or a valie keyword for a key like (Up)"

/-- `key_code_to_text`: a character code becomes its one-character string,
any other code is looked up in `KEYWORDS_REV`, failing if absent. -/
def key_code_to_text : KeyCode → Except String Str
  | KeyCode.Char c => Except.ok [c]
  | code =>
    match lookupRev KEYWORDS code with
    | some value => Except.ok value
    | none => Except.error SER_ERROR_MESSAGE

/-- Error message of `parse_key_code`. -/
def ERROR_MESSAGE : String := "One char or a certain keyword must be provided"

/-- `parse_key_code`: empty → error; UTF-8 byte length 1 → that character;
otherwise exact lookup in `KEYWORDS`, failing with the same message. -/
def parse_key_code (text : Str) : Except String KeyCode :=
  if text.isEmpty then Except.error ERROR_MESSAGE
  else if utf8Len text = 1 then Except.ok (KeyCode.Char text.head!)
  else
    match assocLookup KEYWORDS text with
    | some valid_keyword => Except.ok valid_keyword
    | none => Except.error ERROR_MESSAGE

/-- The key-code `deserialize` entry point: trims, then parses. -/
def deserialize (s : Str) : Except String KeyCode := parse_key_code (trim s)

end serde_key_code

namespace serde_key_modifier

/-- The `NONE` token. -/
def NONE : Str := "NONE".data
/-- The `SHIFT` token. -/
def SHIFT : Str := "SHIFT".data
/-- The `CONTROL` token. -/
def CONTROL : Str := "CONTROL".data
/-- The `SUPER` token. -/
def SUPER : Str := "SUPER".data
/-- The `ALT` token. -/
def ALT : Str := "ALT".data
/-- The `HYPER` token. -/
def HYPER : Str := "HYPER".data
/-- The `META` token. -/
def META : Str := "META".data

/-- The `KEYWORD` table: modifier token → flag bits. -/
def KEYWORD : List (Str × Nat) := [
  (SHIFT, KeyModifiers.SHIFT),
  (CONTROL, KeyModifiers.CONTROL),
  (ALT, KeyModifiers.ALT),
  (SUPER, KeyModifiers.SUPER),
  (HYPER, KeyModifiers.HYPER),
  (META, KeyModifiers.META),
  (NONE, KeyModifiers.NONE)]

/-- `bits_to_strs`: push the names of the flags present in canonical
order ALT, CONTROL, SHIFT, SUPER, HYPER (META is never pushed), then
`NONE` if the set is empty. -/
def bits_to_strs (modif : Nat) : List Str :=
  let r : List Str := []
  let r := if KeyModifiers.contains modif KeyModifiers.ALT then r ++ [ALT] else r
  let r := if KeyModifiers.contains modif KeyModifiers.CONTROL then r ++ [CONTROL] else r
  let r := if KeyModifiers.contains modif KeyModifiers.SHIFT then r ++ [SHIFT] else r
  let r := if KeyModifiers.contains modif KeyModifiers.SUPER then r ++ [SUPER] else r
  let r := if KeyModifiers.contains modif KeyModifiers.HYPER then r ++ [HYPER] else r
  let r := if modif == 0 then r ++ [NONE] else r
  r

/-- `Vec::join` with the `"+"` separator. -/
def joinPlus : List Str → Str
  | [] => []
  | [s] => s
  | s :: rest => s ++ '+' :: joinPlus rest

/-- The modifier `serialize` entry point: join `bits_to_strs` with `+`. -/
def serialize (modifier : Nat) : Str := joinPlus (bits_to_strs modifier)

/-- Rust's `str::split` on the `"+"` separator. -/
def splitOnPlus : Str → List Str
  | [] => [[]]
  | c :: cs =>
    if c = '+' then [] :: splitOnPlus cs
    else
      match splitOnPlus cs with
      | t :: ts => (c :: t) :: ts
      | [] => [[c]]

/-- Error message for an empty modifier string. -/
def EMPTY_ERROR : String := "Need to provide at least keyword for the key modifier"

/-- Error message for an unrecognized token `t`. -/
def invalidKeywordError (t : Str) : String := String.mk t ++ " is not a valid keyword"

/-- The accumulation loop of `parse_key_modifier`: look each token up in
`KEYWORD` and OR the flags together, failing on the first unknown token. -/
def parse_tokens : List Str → Nat → Except String Nat
  | [], acc => Except.ok acc
  | t :: ts, acc =>
    match assocLookup KEYWORD t with
    | some keyword => parse_tokens ts (acc ||| keyword)
    | none => Except.error (invalidKeywordError t)

/-- `parse_key_modifier`: trim, reject empty, split on `+`, accumulate. -/
def parse_key_modifier (text : Str) : Except String Nat :=
  let text := trim text
  if text.isEmpty then Except.error EMPTY_ERROR
  else parse_tokens (splitOnPlus text) KeyModifiers.NONE

/-- The modifier `deserialize` entry point (no extra trimming of its own). -/
def deserialize (s : Str) : Except String Nat := parse_key_modifier s

end serde_key_modifier

/-- `crossterm::event::KeyEvent`; `state` is the `KeyEventState` bitset
(`NONE = 0`). -/
structure KeyEvent where
  code : KeyCode
  modifiers : Nat
  kind : KeyEventKind
  state : Nat
deriving DecidableEq

/-- `default_modifiers()`. -/
def default_modifiers : Nat := KeyModifiers.NONE

/-- `default_event_kind()`. -/
def default_event_kind : KeyEventKind := KeyEventKind.Press

/-- `default_event_state()` (`KeyEventState::NONE`). -/
def default_event_state : Nat := 0

/-- The wire shape of `SerDeConfigKeyEvent`: a `code` string plus an
optional `modifiers` string.  `kind` and `state` carry `#[serde(skip)]`,
so they have no wire field at all. -/
structure SerializedKeyEvent where
  code : Str
  modifiers : Option Str
deriving DecidableEq

/-- Serialization of `SerDeConfigKeyEvent` as declared by its serde
attributes: `code` through `serde_key_code`, `modifiers` through
`serde_key_modifier`, `kind` and `state` skipped. -/
def serialize_key_event (ev : KeyEvent) : Except String SerializedKeyEvent :=
  match serde_key_code.key_code_to_text ev.code with
  | Except.error e => Except.error e
  | Except.ok c =>
      Except.ok ⟨c, some (serde_key_modifier.serialize ev.modifiers)⟩

/-- Deserialization of `SerDeConfigKeyEvent` as declared by its serde
attributes: `code` through `serde_key_code`; `modifiers` through
`serde_key_modifier` when the field is present, `default_modifiers`
otherwise (the decoder is not invoked); `kind` and `state` are skipped
and always take their declared defaults. -/
def deserialize_key_event (r : SerializedKeyEvent) : Except String KeyEvent :=
  match serde_key_code.deserialize r.code with
  | Except.error e => Except.error e
  | Except.ok code =>
    match r.modifiers with
    | none => Except.ok ⟨code, default_modifiers, default_event_kind, default_event_state⟩
    | some s =>
      match serde_key_modifier.deserialize s with
      | Except.error e => Except.error e
      | Except.ok m => Except.ok ⟨code, m, default_event_kind, default_event_state⟩

/-! ## Helper lemmas -/

/-- A string has at least as many UTF-8 bytes as characters. -/
theorem length_le_utf8Len (s : Str) : s.length ≤ utf8Len s := by
  induction s with
  | nil => simp [utf8Len]
  | cons c cs ih =>
    have hc : 1 ≤ c.utf8Size := Char.utf8Size_pos c
    simp only [utf8Len, List.map_cons, List.sum_cons, List.length_cons]
    have : utf8Len cs = (cs.map Char.utf8Size).sum := rfl
    omega

/-- Trimming a non-whitespace single character is the identity. -/
theorem trim_singleton (c : Char) (h : rustIsWhitespace c = false) :
    trim [c] = [c] := by
  simp [trim, trimLeft, trimRight, List.dropWhile, h]

/-- A successful association lookup comes from a list member. -/
theorem assocLookup_mem {α : Type} (l : List (Str × α)) (s : Str) (v : α)
    (h : assocLookup l s = some v) : (s, v) ∈ l := by
  induction l with
  | nil => simp [assocLookup] at h
  | cons p rest ih =>
    obtain ⟨p1, p2⟩ := p
    by_cases hp : p1 = s
    · subst hp
      simp [assocLookup] at h
      subst h
      exact List.mem_cons_self _ _
    · simp [assocLookup, hp] at h
      exact List.mem_cons_of_mem _ (ih h)

/-- Every reserved key name in the table has at least two characters. -/
theorem keywords_min_len :
    ∀ p ∈ serde_key_code.KEYWORDS, 2 ≤ p.1.length := by decide

/-- One-character strings are never found in the key-name table. -/
theorem assocLookup_keywords_singleton (c : Char) :
    assocLookup serde_key_code.KEYWORDS [c] = none := by
  cases h : assocLookup serde_key_code.KEYWORDS [c] with
  | none => rfl
  | some v =>
    exfalso
    have hm := assocLookup_mem _ _ _ h
    have hlen := keywords_min_len _ hm
    simp at hlen

/-- If every token is recognized, the accumulation loop succeeds and
returns the OR-fold of the looked-up flags. -/
theorem parse_tokens_ok (ts : List Str) (acc : Nat)
    (h : ∀ t ∈ ts, (assocLookup serde_key_modifier.KEYWORD t).isSome = true) :
    serde_key_modifier.parse_tokens ts acc =
      Except.ok (ts.foldl
        (fun a t => a ||| (assocLookup serde_key_modifier.KEYWORD t).getD 0) acc) := by
  induction ts generalizing acc with
  | nil => rfl
  | cons t ts ih =>
    have ht := h t (List.mem_cons_self _ _)
    obtain ⟨k, hk⟩ := Option.isSome_iff_exists.mp ht
    have h2 : ∀ t2 ∈ ts, (assocLookup serde_key_modifier.KEYWORD t2).isSome = true :=
      fun t2 ht2 => h t2 (List.mem_cons_of_mem _ ht2)
    simp only [serde_key_modifier.parse_tokens, hk, List.foldl_cons, Option.getD_some]
    exact ih (acc ||| k) h2

/-- If some token is unrecognized, the accumulation loop fails. -/
theorem parse_tokens_err (ts : List Str) (acc : Nat)
    (h : ∃ t ∈ ts, assocLookup serde_key_modifier.KEYWORD t = none) :
    ∃ e, serde_key_modifier.parse_tokens ts acc = Except.error e := by
  induction ts generalizing acc with
  | nil => simp at h
  | cons t ts ih =>
    cases hl : assocLookup serde_key_modifier.KEYWORD t with
    | none =>
      exact ⟨serde_key_modifier.invalidKeywordError t,
        by simp [serde_key_modifier.parse_tokens, hl]⟩
    | some k =>
      obtain ⟨t2, ht2, hnone⟩ := h
      rcases List.mem_cons.mp ht2 with rfl | hmem
      · rw [hl] at hnone
        exact absurd hnone (by simp)
      · have hrec := ih (acc ||| k) ⟨t2, hmem, hnone⟩
        simpa [serde_key_modifier.parse_tokens, hl] using hrec

/-- Any failure of the accumulation loop is an unknown-token failure, and
the message names the offending token. -/
theorem parse_tokens_error_shape (ts : List Str) (acc : Nat) (e : String)
    (h : serde_key_modifier.parse_tokens ts acc = Except.error e) :
    ∃ t ∈ ts, assocLookup serde_key_modifier.KEYWORD t = none ∧
      e = serde_key_modifier.invalidKeywordError t := by
  induction ts generalizing acc with
  | nil => simp [serde_key_modifier.parse_tokens] at h
  | cons t ts ih =>
    cases hl : assocLookup serde_key_modifier.KEYWORD t with
    | none =>
      simp [serde_key_modifier.parse_tokens, hl] at h
      exact ⟨t, List.mem_cons_self _ _, hl, h.symm⟩
    | some k =>
      simp only [serde_key_modifier.parse_tokens, hl] at h
      obtain ⟨t2, hmem, hn, he⟩ := ih (acc ||| k) h
      exact ⟨t2, List.mem_cons_of_mem _ hmem, hn, he⟩

/-! ## Claim theorems -/

/-- C1 (counterexample): META is one of the six flags, yet the set
`{META}` does not round-trip — its encoding is the empty string (the
emission order never lists META and the set is not empty, so not even
`NONE` is emitted), and decoding the empty string fails. -/
theorem c1_meta_roundtrip_counterexample :
    KeyModifiers.META &&& (KeyModifiers.SHIFT ||| KeyModifiers.CONTROL |||
      KeyModifiers.ALT ||| KeyModifiers.SUPER ||| KeyModifiers.HYPER |||
      KeyModifiers.META) = KeyModifiers.META ∧
    serde_key_modifier.serialize KeyModifiers.META = [] ∧
    serde_key_modifier.parse_key_modifier
      (serde_key_modifier.serialize KeyModifiers.META) =
      Except.error serde_key_modifier.EMPTY_ERROR ∧
    serde_key_modifier.parse_key_modifier
      (serde_key_modifier.serialize KeyModifiers.META) ≠
      Except.ok KeyModifiers.META := by decide

/-- C1 (amended): decoding the encoding of a modifier set returns the set
for every subset of the five emitted flags ALT, CONTROL, SHIFT, SUPER,
HYPER — i.e. every META-free subset of the six flags. -/
theorem c1_modifier_roundtrip_without_meta :
    ∀ m : Nat, m < 32 →
      serde_key_modifier.parse_key_modifier (serde_key_modifier.serialize m) =
        Except.ok m := by decide

/-- C1 witness: the round-trip at the concrete set SHIFT|ALT|HYPER = 21. -/
theorem c1_modifier_roundtrip_without_meta_witness :
    serde_key_modifier.parse_key_modifier (serde_key_modifier.serialize 21) =
      Except.ok 21 :=
  c1_modifier_roundtrip_without_meta 21 (by decide)

/-- C2 (counterexample): the character round-trip fails for the two-byte
character `é` (the decoder branches on byte length) and for the space
character (the decoder trims it away and then rejects the empty text). -/
theorem c2_char_roundtrip_counterexample :
    (serde_key_code.key_code_to_text (KeyCode.Char 'é')).bind
        serde_key_code.deserialize ≠ Except.ok (KeyCode.Char 'é') ∧
    (serde_key_code.key_code_to_text (KeyCode.Char ' ')).bind
        serde_key_code.deserialize ≠ Except.ok (KeyCode.Char ' ') := by decide

/-- C2 (amended): decoding the encoding of `Character(c)` yields
`Character(c)` for every character `c` that occupies a single UTF-8 byte
and is not whitespace. -/
theorem c2_char_roundtrip_single_byte (c : Char) (hsize : c.utf8Size = 1)
    (hws : rustIsWhitespace c = false) :
    (serde_key_code.key_code_to_text (KeyCode.Char c)).bind
      serde_key_code.deserialize = Except.ok (KeyCode.Char c) := by
  have htrim := trim_singleton c hws
  simp [serde_key_code.key_code_to_text, Except.bind, serde_key_code.deserialize,
    htrim, serde_key_code.parse_key_code, utf8Len, hsize, List.head!]

/-- C2 witness: the round-trip at the concrete character `a`. -/
theorem c2_char_roundtrip_single_byte_witness :
    ('a'.utf8Size = 1 ∧ rustIsWhitespace 'a' = false) ∧
    (serde_key_code.key_code_to_text (KeyCode.Char 'a')).bind
      serde_key_code.deserialize = Except.ok (KeyCode.Char 'a') :=
  ⟨⟨by decide, by decide⟩, c2_char_roundtrip_single_byte 'a' (by decide) (by decide)⟩

/-- C3: every named key in the fixed table round-trips: encoding yields the
reserved name and decoding the name returns the same named key. -/
theorem c3_named_key_roundtrip :
    ∀ p, p ∈ serde_key_code.KEYWORDS →
      (serde_key_code.key_code_to_text p.2).bind serde_key_code.deserialize =
        Except.ok p.2 := by decide

/-- C3 witness: the round-trip at the concrete table entry for `Up`. -/
theorem c3_named_key_roundtrip_witness :
    (serde_key_code.key_code_to_text KeyCode.Up).bind serde_key_code.deserialize =
      Except.ok KeyCode.Up :=
  c3_named_key_roundtrip ("Up".data, KeyCode.Up) (by decide)

/-- C4: on every modifier set over the six flags, the encoder emits exactly
the present flags among ALT, CONTROL, SHIFT, SUPER, HYPER, in that fixed
canonical order, never emits META, emits the single token `NONE` for the
empty set, and is order-independent in the set construction
(`ALT ||| CONTROL` and `CONTROL ||| ALT` both encode to `"ALT+CONTROL"`). -/
theorem c4_canonical_modifier_encoding :
    (∀ m : Nat, m < 64 →
      serde_key_modifier.bits_to_strs m =
        (([(serde_key_modifier.ALT, KeyModifiers.ALT),
           (serde_key_modifier.CONTROL, KeyModifiers.CONTROL),
           (serde_key_modifier.SHIFT, KeyModifiers.SHIFT),
           (serde_key_modifier.SUPER, KeyModifiers.SUPER),
           (serde_key_modifier.HYPER, KeyModifiers.HYPER)].filter
            (fun p => KeyModifiers.contains m p.2)).map Prod.fst ++
          (if m = 0 then [serde_key_modifier.NONE] else [])) ∧
      serde_key_modifier.META ∉ serde_key_modifier.bits_to_strs m) ∧
    serde_key_modifier.serialize (KeyModifiers.ALT ||| KeyModifiers.CONTROL) =
      "ALT+CONTROL".data ∧
    serde_key_modifier.serialize (KeyModifiers.CONTROL ||| KeyModifiers.ALT) =
      "ALT+CONTROL".data ∧
    serde_key_modifier.serialize KeyModifiers.NONE = "NONE".data :=
  ⟨by decide, by decide, by decide, by decide⟩

/-- C4 witness: the canonical emission at the concrete set ALT|CONTROL. -/
theorem c4_canonical_modifier_encoding_witness :
    serde_key_modifier.bits_to_strs 6 =
      [serde_key_modifier.ALT, serde_key_modifier.CONTROL] ∧
    serde_key_modifier.META ∉ serde_key_modifier.bits_to_strs 6 := by
  have h := c4_canonical_modifier_encoding.1 6 (by decide)
  exact ⟨by rw [h.1]; decide, h.2⟩

/-- A non-nil list is not `isEmpty`. -/
theorem isEmpty_false_of_ne_nil (s : Str) (h : s ≠ []) : s.isEmpty = false := by
  cases s with
  | nil => exact absurd rfl h
  | cons a as => rfl

/-- On non-empty trimmed input, `parse_key_modifier` is the token loop. -/
theorem parse_key_modifier_eq (text : Str) (h : trim text ≠ []) :
    serde_key_modifier.parse_key_modifier text =
      serde_key_modifier.parse_tokens
        (serde_key_modifier.splitOnPlus (trim text)) KeyModifiers.NONE := by
  simp [serde_key_modifier.parse_key_modifier, isEmpty_false_of_ne_nil _ h]

/-- On empty trimmed input, `parse_key_modifier` fails with the empty-input
message. -/
theorem parse_key_modifier_empty (text : Str) (h : trim text = []) :
    serde_key_modifier.parse_key_modifier text =
      Except.error serde_key_modifier.EMPTY_ERROR := by
  simp [serde_key_modifier.parse_key_modifier, h]

/-- A string found in the key-name table parses to its table value. -/
theorem parse_key_code_of_lookup (s : Str) (k : KeyCode)
    (h : assocLookup serde_key_code.KEYWORDS s = some k) :
    serde_key_code.parse_key_code s = Except.ok k := by
  have hmem := assocLookup_mem _ _ _ h
  have hlen : 2 ≤ s.length := keywords_min_len _ hmem
  cases s with
  | nil => simp at hlen
  | cons a as =>
    have hbytes : 2 ≤ utf8Len (a :: as) := le_trans hlen (length_le_utf8Len _)
    simp only [serde_key_code.parse_key_code]
    rw [if_neg (by simp), if_neg (by omega), h]

/-- A multi-character string absent from the key-name table is rejected. -/
theorem parse_key_code_unmatched (s : Str) (hlen : 2 ≤ s.length)
    (hnone : assocLookup serde_key_code.KEYWORDS s = none) :
    serde_key_code.parse_key_code s = Except.error serde_key_code.ERROR_MESSAGE := by
  cases s with
  | nil => simp at hlen
  | cons a as =>
    have hbytes : 2 ≤ utf8Len (a :: as) := le_trans hlen (length_le_utf8Len _)
    simp only [serde_key_code.parse_key_code]
    rw [if_neg (by simp), if_neg (by omega), hnone]

/-- C5 (counterexample): `ß` is a single character, survives trimming, yet
does not decode as the character `ß` — decoding fails, because the
length-one test is on UTF-8 bytes and `ß` occupies two. -/
theorem c5_one_char_counterexample :
    ("ß".data).length = 1 ∧ trim ("ß".data) = "ß".data ∧
    serde_key_code.deserialize ("ß".data) =
      Except.error serde_key_code.ERROR_MESSAGE ∧
    serde_key_code.deserialize ("ß".data) ≠
      Except.ok (KeyCode.Char 'ß') := by decide

/-- C5 (amended): after trimming, input of exactly one UTF-8 byte always
decodes as that character and is never looked up in the name table (so
`"A"` is `Character('A')` even though `ALT` is a modifier name); a
trimmed input found in the table decodes to its named key; empty input
and unmatched multi-character input fail with the same message. -/
theorem c5_key_identity_decode_cases :
    (∀ (text : Str) (c : Char), trim text = [c] → c.utf8Size = 1 →
      serde_key_code.deserialize text = Except.ok (KeyCode.Char c)) ∧
    serde_key_code.deserialize ("A".data) = Except.ok (KeyCode.Char 'A') ∧
    (∀ (text : Str) (k : KeyCode),
      assocLookup serde_key_code.KEYWORDS (trim text) = some k →
      serde_key_code.deserialize text = Except.ok k) ∧
    (∀ text : Str, trim text = [] →
      serde_key_code.deserialize text = Except.error serde_key_code.ERROR_MESSAGE) ∧
    (∀ text : Str, 2 ≤ (trim text).length →
      assocLookup serde_key_code.KEYWORDS (trim text) = none →
      serde_key_code.deserialize text = Except.error serde_key_code.ERROR_MESSAGE) := by
  refine ⟨?_, by decide, ?_, ?_, ?_⟩
  · intro text c htrim hsize
    show serde_key_code.parse_key_code (trim text) = _
    rw [htrim]
    simp [serde_key_code.parse_key_code, utf8Len, hsize, List.head!]
  · intro text k hk
    exact parse_key_code_of_lookup (trim text) k hk
  · intro text htrim
    show serde_key_code.parse_key_code (trim text) = _
    rw [htrim]
    rfl
  · intro text hlen hnone
    exact parse_key_code_unmatched (trim text) hlen hnone

/-- C5 witness: `" B "` trims to the single byte `B` and decodes as the
character `B`. -/
theorem c5_key_identity_decode_cases_witness :
    serde_key_code.deserialize (" B ".data) = Except.ok (KeyCode.Char 'B') :=
  c5_key_identity_decode_cases.1 (" B ".data) 'B' (by decide) (by decide)

/-- C6: whenever every `+`-separated token of the trimmed modifier text is
in the recognized vocabulary, decoding returns the OR-union of the flags
the tokens name; duplicates are absorbed, and `NONE` combined with other
tokens contributes the empty set, so `"ALT+NONE+SUPER"` and `"ALT+SUPER"`
decode to the same set `{ALT, SUPER}`. -/
theorem c6_modifier_union_decode :
    (∀ text : Str,
      (∀ t ∈ serde_key_modifier.splitOnPlus (trim text),
        (assocLookup serde_key_modifier.KEYWORD t).isSome = true) →
      serde_key_modifier.parse_key_modifier text =
        Except.ok ((serde_key_modifier.splitOnPlus (trim text)).foldl
          (fun a t => a ||| (assocLookup serde_key_modifier.KEYWORD t).getD 0)
          KeyModifiers.NONE)) ∧
    serde_key_modifier.parse_key_modifier ("ALT+NONE+SUPER".data) =
      serde_key_modifier.parse_key_modifier ("ALT+SUPER".data) ∧
    serde_key_modifier.parse_key_modifier ("ALT+SUPER".data) =
      Except.ok (KeyModifiers.ALT ||| KeyModifiers.SUPER) ∧
    serde_key_modifier.parse_key_modifier ("ALT+ALT+ALT".data) =
      Except.ok KeyModifiers.ALT := by
  refine ⟨?_, by decide, by decide, by decide⟩
  intro text h
  by_cases htt : trim text = []
  · exfalso
    have h0 := h [] (by rw [htt]; simp [serde_key_modifier.splitOnPlus])
    have hln : assocLookup serde_key_modifier.KEYWORD ([] : Str) = none := by decide
    rw [hln] at h0
    simp at h0
  · rw [parse_key_modifier_eq text htt]
    exact parse_tokens_ok _ _ h

/-- C6 witness: decoding `"ALT+NONE+SUPER"` via the union formula. -/
theorem c6_modifier_union_decode_witness :
    serde_key_modifier.parse_key_modifier ("ALT+NONE+SUPER".data) =
      Except.ok (KeyModifiers.ALT ||| KeyModifiers.SUPER) := by
  have h := c6_modifier_union_decode.1 ("ALT+NONE+SUPER".data) (by decide)
  rw [h]
  decide

/-- C7: modifier decoding fails exactly when the trimmed input is empty or
some `+`-separated token is outside the recognized vocabulary; every
failure message is either the empty-input message or names the offending
token, and concretely `"ALT+Z"` fails naming `Z`, `"AL"` fails naming
`AL`, and the empty string fails. -/
theorem c7_modifier_decode_errors :
    (∀ text : Str,
      (∃ e, serde_key_modifier.parse_key_modifier text = Except.error e) ↔
        (trim text = [] ∨ ∃ t ∈ serde_key_modifier.splitOnPlus (trim text),
          assocLookup serde_key_modifier.KEYWORD t = none)) ∧
    (∀ (text : Str) (e : String),
      serde_key_modifier.parse_key_modifier text = Except.error e →
        (trim text = [] ∧ e = serde_key_modifier.EMPTY_ERROR) ∨
        ∃ t ∈ serde_key_modifier.splitOnPlus (trim text),
          assocLookup serde_key_modifier.KEYWORD t = none ∧
          e = serde_key_modifier.invalidKeywordError t) ∧
    serde_key_modifier.parse_key_modifier ("ALT+Z".data) =
      Except.error ("Z is not a valid keyword") ∧
    serde_key_modifier.parse_key_modifier ("AL".data) =
      Except.error ("AL is not a valid keyword") ∧
    serde_key_modifier.parse_key_modifier ([] : Str) =
      Except.error serde_key_modifier.EMPTY_ERROR := by
  refine ⟨?_, ?_, by decide, by decide, by decide⟩
  · intro text
    constructor
    · rintro ⟨e, he⟩
      by_cases htt : trim text = []
      · exact Or.inl htt
      · rw [parse_key_modifier_eq text htt] at he
        obtain ⟨t, hmem, hnone, _⟩ := parse_tokens_error_shape _ _ _ he
        exact Or.inr ⟨t, hmem, hnone⟩
    · rintro (htt | ⟨t, hmem, hnone⟩)
      · exact ⟨serde_key_modifier.EMPTY_ERROR, parse_key_modifier_empty text htt⟩
      · by_cases htt : trim text = []
        · exact ⟨serde_key_modifier.EMPTY_ERROR, parse_key_modifier_empty text htt⟩
        · obtain ⟨e, hpe⟩ :=
            parse_tokens_err _ KeyModifiers.NONE ⟨t, hmem, hnone⟩
          exact ⟨e, by rw [parse_key_modifier_eq text htt]; exact hpe⟩
  · intro text e he
    by_cases htt : trim text = []
    · rw [parse_key_modifier_empty text htt] at he
      simp at he
      exact Or.inl ⟨htt, he.symm⟩
    · rw [parse_key_modifier_eq text htt] at he
      exact Or.inr (parse_tokens_error_shape _ _ _ he)

/-- C8: key-identity encoding fails exactly on named-key variants with no
entry in the name table; every character identity and every table-listed
named identity encodes successfully. -/
theorem c8_encode_error_iff_unnamed :
    ∀ code : KeyCode,
      (∃ e, serde_key_code.key_code_to_text code = Except.error e) ↔
        ((∀ c, code ≠ KeyCode.Char c) ∧
          serde_key_code.lookupRev serde_key_code.KEYWORDS code = none) := by
  intro code
  cases code <;>
    simp [serde_key_code.key_code_to_text, serde_key_code.lookupRev,
      serde_key_code.KEYWORDS]

/-- C9: decoded key events always carry kind `Press` and empty extra
state; an absent `modifiers` field defaults to the empty set (only the
identity decoder runs); and the encoder's output depends only on identity
and modifiers — `kind` and `state` have no wire field at all. -/
theorem c9_fixed_kind_state_defaults :
    (∀ (r : SerializedKeyEvent) (ev : KeyEvent),
      deserialize_key_event r = Except.ok ev →
        ev.kind = KeyEventKind.Press ∧ ev.state = 0) ∧
    (∀ r : SerializedKeyEvent, r.modifiers = none →
      deserialize_key_event r = (serde_key_code.deserialize r.code).map
        (fun c => ⟨c, default_modifiers, default_event_kind, default_event_state⟩)) ∧
    (∀ ev1 ev2 : KeyEvent, ev1.code = ev2.code → ev1.modifiers = ev2.modifiers →
      serialize_key_event ev1 = serialize_key_event ev2) := by
  refine ⟨?_, ?_, ?_⟩
  · intro r ev h
    unfold deserialize_key_event at h
    cases hc : serde_key_code.deserialize r.code with
    | error e => rw [hc] at h; simp at h
    | ok code =>
      rw [hc] at h
      cases hm : r.modifiers with
      | none =>
        rw [hm] at h
        simp at h
        subst h
        exact ⟨rfl, rfl⟩
      | some s =>
        rw [hm] at h
        cases hp : serde_key_modifier.deserialize s with
        | error e => simp [hp] at h
        | ok m =>
          simp [hp] at h
          subst h
          exact ⟨rfl, rfl⟩
  · intro r hm
    unfold deserialize_key_event
    rw [hm]
    cases hc : serde_key_code.deserialize r.code <;> simp [Except.map]
  · intro ev1 ev2 hc hm
    unfold serialize_key_event
    rw [hc, hm]

/-- C9 witness: decoding a record with no `modifiers` field. -/
theorem c9_fixed_kind_state_defaults_witness :
    deserialize_key_event ⟨"Up".data, none⟩ =
      (serde_key_code.deserialize ("Up".data)).map
        (fun c => ⟨c, default_modifiers, default_event_kind, default_event_state⟩) :=
  c9_fixed_kind_state_defaults.2.1 ⟨"Up".data, none⟩ rfl

/-- C10: the one-character branch of key-identity decoding tests UTF-8
byte length, so any trimmed input that is a single character of more than
one byte is rejected with the decoding error (no multi-byte character can
match a table name). -/
theorem c10_single_char_byte_length (text : Str) (c : Char)
    (htrim : trim text = [c]) (hsize : 1 < c.utf8Size) :
    serde_key_code.deserialize text = Except.error serde_key_code.ERROR_MESSAGE := by
  have hlook := assocLookup_keywords_singleton c
  show serde_key_code.parse_key_code (trim text) = _
  rw [htrim]
  simp only [serde_key_code.parse_key_code]
  rw [if_neg (by simp), if_neg (by simp [utf8Len]; omega), hlook]

/-- C10 witness: the two-byte character `ü` is rejected. -/
theorem c10_single_char_byte_length_witness :
    serde_key_code.deserialize ("ü".data) =
      Except.error serde_key_code.ERROR_MESSAGE :=
  c10_single_char_byte_length ("ü".data) 'ü' (by decide) (by decide)

/-- C7 witness: the failure on `"ALT+Z"` is an unknown-token failure whose
message names the offending token. -/
theorem c7_modifier_decode_errors_witness :
    (trim ("ALT+Z".data) = [] ∧
      "Z is not a valid keyword" = serde_key_modifier.EMPTY_ERROR) ∨
    ∃ t ∈ serde_key_modifier.splitOnPlus (trim ("ALT+Z".data)),
      assocLookup serde_key_modifier.KEYWORD t = none ∧
      "Z is not a valid keyword" = serde_key_modifier.invalidKeywordError t :=
  c7_modifier_decode_errors.2.1 ("ALT+Z".data) "Z is not a valid keyword" (by decide)

/-- C8 witness: the characterization at the concrete untabled code `F 5`. -/
theorem c8_encode_error_iff_unnamed_witness :
    (∃ e, serde_key_code.key_code_to_text (KeyCode.F 5) = Except.error e) ↔
      ((∀ c, KeyCode.F 5 ≠ KeyCode.Char c) ∧
        serde_key_code.lookupRev serde_key_code.KEYWORDS (KeyCode.F 5) = none) :=
  c8_encode_error_iff_unnamed (KeyCode.F 5)
